import Mathlib

/-!
Verification development for the lc3vm emulator (src/main.cc).

The C program is shallowly embedded: 16-bit machine words are Nats kept
below 65536 by taking `% 65536` exactly where a C assignment to a u16
truncates; memory and the register file are total functions from Nat;
the terminal is modelled by a list of pending stdin bytes (values 0-255)
and a list of output bytes.  `CheckKey` (a non-blocking select on stdin)
is true exactly when the pending-input list is nonempty, and `getchar`
pops its head; at end of input `getchar` yields EOF (-1), as the C
library does.  Loading and execution never perform real I/O here, so the
external terminal driver of the C program is represented by these lists.
-/

namespace lc3

/-! ## Register file and constant tables (the enums of main.cc) -/

abbrev kR0 : Nat := 0
abbrev kR1 : Nat := 1
abbrev kR2 : Nat := 2
abbrev kR3 : Nat := 3
abbrev kR4 : Nat := 4
abbrev kR5 : Nat := 5
abbrev kR6 : Nat := 6
abbrev kR7 : Nat := 7
abbrev kRPC : Nat := 8
abbrev kRCond : Nat := 9

abbrev kRegCnt : Nat := kRCond + 1

abbrev kOpAdd : Nat := 0x1
abbrev kOpAnd : Nat := 0x5
abbrev kOpBr : Nat := 0x0
abbrev kOpJmp : Nat := 0xC
abbrev kOpJsr : Nat := 0x4
abbrev kOpLd : Nat := 0x2
abbrev kOpLdi : Nat := 0xA
abbrev kOpLdr : Nat := 0x6
abbrev kOpLea : Nat := 0xE
abbrev kOpNot : Nat := 0x9
abbrev kOpRti : Nat := 0x8
abbrev kOpRes : Nat := 0xD
abbrev kOpSt : Nat := 0x3
abbrev kOpSti : Nat := 0xB
abbrev kOpStr : Nat := 0x7
abbrev kOpTrap : Nat := 0xF

abbrev kFlPos : Nat := 1
abbrev kFlZro : Nat := 2
abbrev kFlNeg : Nat := 4

abbrev kTrapGetc : Nat := 0x20
abbrev kTrapOut : Nat := 0x21
abbrev kTrapPuts : Nat := 0x22
abbrev kTrapIn : Nat := 0x23
abbrev kTrapPutsp : Nat := 0x24
abbrev kTrapHalt : Nat := 0x25

abbrev kKeyboardStatus : Nat := 0xFE00
abbrev kKeyboardData : Nat := 0xFE02

/-- The constant `constexpr int kMaxMemory = UINT16_MAX;` — the element count of the
array `u16 memory_[kMaxMemory]`, i.e. 65535 (not 65536). -/
abbrev kMaxMemory : Nat := 65535

/-! ## Pure helpers of main.cc -/

/-- The helper `u16 SignExtend(u16 x, int bits_cnt)`: the C computes
`(0xFFFF << bits_cnt) | x` in int and truncates to u16 on return. -/
def SignExtend (x : Nat) (bits_cnt : Nat) : Nat :=
  if (x >>> (bits_cnt - 1)) &&& 1 = 1 then (0xFFFF <<< bits_cnt ||| x) % 65536
  else x

/-- The helper `u16 u16Swap(u16 x) { return (x >> 8) | (x << 8); }` with the
int-arithmetic result truncated to u16 on return. -/
def u16Swap (x : Nat) : Nat := (x >>> 8 ||| x <<< 8) % 65536

/-- The field extractor `u16 R0(u16 instr) { return (instr >> 9) & 0x7; }` -/
def R0 (instr : Nat) : Nat := (instr >>> 9) &&& 0x7

/-- The field extractor `u16 R1(u16 instr) { return (instr >> 6) & 0x7; }` -/
def R1 (instr : Nat) : Nat := (instr >>> 6) &&& 0x7

/-- The field extractor `u16 R2(u16 instr) { return instr & 0x7; }` -/
def R2 (instr : Nat) : Nat := instr &&& 0x7

/-! ## Stores: memory and registers as total maps with u16 truncation -/

/-- Store `v` into a u16 cell: the assigned value is truncated mod 2^16. -/
def setMem (m : Nat → Nat) (a v : Nat) : Nat → Nat :=
  fun i => if i = a then v % 65536 else m i

/-- Store `v` into a u16 register. -/
def setReg (r : Nat → Nat) (a v : Nat) : Nat → Nat :=
  fun i => if i = a then v % 65536 else r i

/-- Zero-initialized memory (`u16 memory_[kMaxMemory] = {0}`). -/
def zeroMem : Nat → Nat := fun _ => 0

/-- Zero-initialized register file (`u16 reg_[kRegCnt] = {0}`). -/
def zeroReg : Nat → Nat := fun _ => 0

/-- All stored words fit in a u16. -/
def WFmem (m : Nat → Nat) : Prop := ∀ a, m a < 65536

/-! ## Terminal driver model -/

/-- The call `getchar()` on the modelled stdin: pops the next pending byte, or
returns EOF (-1) when input is exhausted. -/
def getchar : List Nat → Int × List Nat
  | [] => (-1, [])
  | c :: rest => (((c % 256 : Nat) : Int), rest)

/-- Conversion of a C int to u16 (what assigning `getchar()` to a u16
register or memory cell does). -/
def toU16 (i : Int) : Nat := (i % 65536).toNat

/-- Conversion of a C int to signed char (what `char c = getc(stdin)`
does). -/
def toChar8 (i : Int) : Int := (i + 128) % 256 - 128

/-! ## VM::MemRead — the device poll happens only at kKeyboardStatus -/

/-- The method `u16 VM::MemRead(size_t addr)`: returns the (possibly updated)
memory, the remaining input, and the u16 the C function returns.
The keyboard poll runs only when `addr == kKeyboardStatus`. -/
def MemRead (mem : Nat → Nat) (input : List Nat) (addr : Nat) :
    (Nat → Nat) × List Nat × Nat :=
  if addr = kKeyboardStatus then
    match input with
    | c :: rest =>
      let m1 := setMem (setMem mem kKeyboardStatus (1 <<< 15)) kKeyboardData (c % 256)
      (m1, rest, m1 addr)
    | [] =>
      let m1 := setMem mem kKeyboardStatus 0
      (m1, [], m1 addr)
  else (mem, input, mem addr)

/-! ## VM::UpdateFlag -/

/-- The method `void VM::UpdateFlag(u16 r)`: zero first, then the sign bit, else
positive; writes `kRCond`. -/
def UpdateFlag (reg : Nat → Nat) (r : Nat) : Nat → Nat :=
  if reg r = 0 then setReg reg kRCond kFlZro
  else if reg r >>> 15 ≠ 0 then setReg reg kRCond kFlNeg
  else setReg reg kRCond kFlPos

/-! ## VM::LoadImage

The image is an optional byte list (`none` = the null pointer).  The C
reads the first two bytes into a u16 via memcpy on a little-endian host,
byte-swaps it into `origin`, memcpys the remaining `n = image_size - 2`
bytes into `memory_ + origin`, and then swaps `n` words in place — note
`n` counts bytes, not words.  `bodyByteCount` mirrors the size_t
subtraction `image_size - sizeof(origin)`, which underflows to 2^64 - 1
for a 1-byte image; the resulting unbounded memcpy is undefined
behavior in the C and is modelled as load failure. -/

/-- Write one byte into the little-endian byte store underlying the word
memory: even byte indices are the low byte of word `byteIdx / 2`. -/
def writeByte (mem : Nat → Nat) (byteIdx : Nat) (b : Nat) : Nat → Nat :=
  if byteIdx % 2 = 0 then setMem mem (byteIdx / 2) (mem (byteIdx / 2) / 256 * 256 + b % 256)
  else setMem mem (byteIdx / 2) (mem (byteIdx / 2) % 256 + b % 256 * 256)

/-- The copy `memcpy(memory_ + origin, image + 2, n)` on a little-endian host:
copy the body bytes to consecutive byte positions starting at byte index
`byteIdx = 2 * origin`. -/
def copyBytes (mem : Nat → Nat) (byteIdx : Nat) : List Nat → (Nat → Nat)
  | [] => mem
  | b :: rest => copyBytes (writeByte mem byteIdx b) (byteIdx + 1) rest

/-- The in-place swap loop `while (n-- > 0) { *p = u16Swap(*p); ++p; }`:
swaps `n` consecutive words starting at word index `w`. -/
def swapWords (mem : Nat → Nat) (w : Nat) : Nat → (Nat → Nat)
  | 0 => mem
  | n + 1 => swapWords (setMem mem w (u16Swap (mem w))) (w + 1) n

/-- The count `usize n = image_size - sizeof(origin)`: size_t subtraction of 2,
performed mod 2^64. -/
def bodyByteCount (image_size : Nat) : Nat := (image_size + (2 ^ 64 - 2)) % 2 ^ 64

/-- The method `bool VM::LoadImage(const char *image, int image_size)`; returns the
new memory on success.  The guard is exactly the C guard
`!image || image_size == 0 || image_size > kMaxMemory`.  A 1-byte image
passes the guard but makes `bodyByteCount` underflow to 2^64 - 1 and the
memcpy of that many bytes is undefined behavior: modelled as `none`. -/
def LoadImage (mem : Nat → Nat) (image : Option (List Nat)) : Option (Nat → Nat) :=
  match image with
  | none => none
  | some bytes =>
    if bytes.length = 0 then none
    else if bytes.length > kMaxMemory then none
    else
      match bytes with
      | b0 :: b1 :: body =>
        let origin := u16Swap (b0 % 256 + b1 % 256 * 256)
        let n := bodyByteCount (2 + body.length)
        let m1 := copyBytes mem (2 * origin) body
        some (swapWords m1 origin n)
      | _ => none

/-! ## The execution engine -/

structure VMState where
  mem : Nat → Nat
  reg : Nat → Nat
  running : Bool
  input : List Nat
  output : List Nat

/-- Bytes of the diagnostic `printf("bad opcode")`. -/
def badOpcodeMsg : List Nat := [98, 97, 100, 32, 111, 112, 99, 111, 100, 101]

/-- Bytes of `puts("halt")` (puts appends a newline). -/
def haltMsg : List Nat := [104, 97, 108, 116, 10]

/-- Bytes of `printf("Enter a character: ")`. -/
def promptMsg : List Nat :=
  [69, 110, 116, 101, 114, 32, 97, 32, 99, 104, 97, 114, 97, 99, 116, 101, 114, 58, 32]

/-- The PUTS walk `while (*c) { putc((char)*c); ++c; }`, emitting the low
byte of each nonzero word.  The C walks raw pointers; the fuel bounds the
walk by the pointer space. -/
def scanPuts (mem : Nat → Nat) : Nat → Nat → List Nat
  | 0, _ => []
  | fuel + 1, c => if mem c = 0 then [] else mem c % 256 :: scanPuts mem fuel (c + 1)

/-- The PUTSP walk: low byte, then the high byte when it is nonzero. -/
def scanPutsp (mem : Nat → Nat) : Nat → Nat → List Nat
  | 0, _ => []
  | fuel + 1, c =>
    if mem c = 0 then []
    else mem c % 256 :: ((if mem c >>> 8 ≠ 0 then [mem c >>> 8] else []) ++
      scanPutsp mem fuel (c + 1))

/-- Fuel for the PUTS/PUTSP pointer walks (the 64-bit pointer space). -/
def kScanFuel : Nat := 2 ^ 64

/-- The decode-execute part of one iteration of `VM::Run`.  `mem1`,
`input1` are memory and input after the fetch read, `reg1` is the
register file after the fetch increment of the PC, `instr` the fetched
word.  The cases follow the C switch; opcodes 0x8 (RTI) and 0xD
(reserved) and the default case all print the diagnostic and stop. -/
def exec (s : VMState) (mem1 : Nat → Nat) (input1 : List Nat)
    (reg1 : Nat → Nat) (instr : Nat) : VMState :=
  let op := instr >>> 12
  if op = kOpAdd then
    let r0 := R0 instr
    let v := if (instr >>> 5) &&& 1 = 1
      then reg1 (R1 instr) + SignExtend (instr &&& 0x1F) 5
      else reg1 (R1 instr) + reg1 (R2 instr)
    { s with mem := mem1, input := input1, reg := UpdateFlag (setReg reg1 r0 v) r0 }
  else if op = kOpAnd then
    let r0 := R0 instr
    let v := if (instr >>> 5) &&& 1 = 1
      then reg1 (R1 instr) &&& SignExtend (instr &&& 0x1F) 5
      else reg1 (R1 instr) &&& reg1 (R2 instr)
    { s with mem := mem1, input := input1, reg := UpdateFlag (setReg reg1 r0 v) r0 }
  else if op = kOpBr then
    let reg2 := if reg1 kRCond &&& ((instr >>> 9) &&& 0x7) ≠ 0
      then setReg reg1 kRPC (reg1 kRPC + SignExtend (instr &&& 0x1FF) 9)
      else reg1
    { s with mem := mem1, input := input1, reg := reg2 }
  else if op = kOpJmp then
    { s with mem := mem1, input := input1, reg := setReg reg1 kRPC (reg1 (R1 instr)) }
  else if op = kOpJsr then
    let reg2 := setReg reg1 kR7 (reg1 kRPC)
    let reg3 := if (instr >>> 11) &&& 1 = 1
      then setReg reg2 kRPC (reg2 kRPC + SignExtend (instr &&& 0x7FF) 11)
      else setReg reg2 kRPC (reg2 (R1 instr))
    { s with mem := mem1, input := input1, reg := reg3 }
  else if op = kOpLd then
    let addr := (reg1 kRPC + SignExtend (instr &&& 0x1FF) 9) % 65536
    let t := MemRead mem1 input1 addr
    let r0 := R0 instr
    { s with mem := t.1, input := t.2.1, reg := UpdateFlag (setReg reg1 r0 t.2.2) r0 }
  else if op = kOpLdi then
    let addr := (reg1 kRPC + SignExtend (instr &&& 0x1FF) 9) % 65536
    let t := MemRead mem1 input1 addr
    let u := MemRead t.1 t.2.1 t.2.2
    let r0 := R0 instr
    { s with mem := u.1, input := u.2.1, reg := UpdateFlag (setReg reg1 r0 u.2.2) r0 }
  else if op = kOpLdr then
    let addr := (reg1 (R1 instr) + SignExtend (instr &&& 0x3F) 6) % 65536
    let t := MemRead mem1 input1 addr
    let r0 := R0 instr
    { s with mem := t.1, input := t.2.1, reg := UpdateFlag (setReg reg1 r0 t.2.2) r0 }
  else if op = kOpLea then
    let r0 := R0 instr
    { s with mem := mem1, input := input1, reg := UpdateFlag (setReg reg1 r0 (reg1 kRPC + SignExtend (instr &&& 0x1FF) 9)) r0 }
  else if op = kOpNot then
    let r0 := R0 instr
    { s with mem := mem1, input := input1, reg := UpdateFlag (setReg reg1 r0 (65535 ^^^ reg1 (R1 instr))) r0 }
  else if op = kOpSt then
    let addr := (reg1 kRPC + SignExtend (instr &&& 0x1FF) 9) % 65536
    { s with mem := setMem mem1 addr (reg1 (R0 instr)), input := input1, reg := reg1 }
  else if op = kOpSti then
    let addr := (reg1 kRPC + SignExtend (instr &&& 0x1FF) 9) % 65536
    let t := MemRead mem1 input1 addr
    { s with mem := setMem t.1 t.2.2 (reg1 (R0 instr)), input := t.2.1, reg := reg1 }
  else if op = kOpStr then
    let addr := (reg1 (R1 instr) + SignExtend (instr &&& 0x3F) 6) % 65536
    { s with mem := setMem mem1 addr (reg1 (R0 instr)), input := input1, reg := reg1 }
  else if op = kOpTrap then
    let code := instr &&& 0xFF
    if code = kTrapGetc then
      let g := getchar input1
      { s with mem := mem1, input := g.2, reg := UpdateFlag (setReg reg1 kR0 (toU16 g.1)) kR0 }
    else if code = kTrapOut then
      { s with mem := mem1, input := input1, reg := reg1, output := s.output ++ [reg1 kR0 % 256] }
    else if code = kTrapPuts then
      { s with mem := mem1, input := input1, reg := reg1, output := s.output ++ scanPuts mem1 kScanFuel (reg1 kR0) }
    else if code = kTrapIn then
      let g := getchar input1
      let c := toChar8 g.1
      { s with mem := mem1, input := g.2, reg := UpdateFlag (setReg reg1 kR0 (toU16 c)) kR0, output := s.output ++ promptMsg ++ [(c % 256).toNat] }
    else if code = kTrapPutsp then
      { s with mem := mem1, input := input1, reg := reg1, output := s.output ++ scanPutsp mem1 kScanFuel (reg1 kR0) }
    else if code = kTrapHalt then
      { s with mem := mem1, input := input1, reg := reg1, running := false, output := s.output ++ haltMsg }
    else
      -- an unrecognized trap code falls through the inner switch: no-op
      { s with mem := mem1, input := input1, reg := reg1 }
  else
    -- kOpRti, kOpRes and the default case: diagnostic and stop
    { s with mem := mem1, input := input1, reg := reg1, running := false, output := s.output ++ badOpcodeMsg }

/-- One iteration of the `while (running)` loop of `VM::Run`:
`u16 addr = reg_[kRPC]++; u16 instr = MemRead(addr);` then the switch. -/
def step (s : VMState) : VMState :=
  if s.running = true then
    let pc := s.reg kRPC
    let t := MemRead s.mem s.input pc
    exec s t.1 t.2.1 (setReg s.reg kRPC (pc + 1)) t.2.2
  else s

/-- The instruction word the fetch of `step` returns. -/
def fetched (s : VMState) : Nat := (MemRead s.mem s.input (s.reg kRPC)).2.2

/-- Memory after the fetch read of `step` (the fetch may poll). -/
def fetchedMem (s : VMState) : Nat → Nat := (MemRead s.mem s.input (s.reg kRPC)).1

/-- Pending input after the fetch read of `step`. -/
def fetchedInput (s : VMState) : List Nat := (MemRead s.mem s.input (s.reg kRPC)).2.1

/-- The state `VM::Run` sets up before the loop: condition flags kFlZro,
PC 0x3000, memory as the loader left it. -/
def initState (mem0 : Nat → Nat) (input : List Nat) : VMState :=
  { mem := mem0
    reg := setReg (setReg zeroReg kRCond kFlZro) kRPC 0x3000
    running := true
    input := input
    output := [] }

/-- States the execution engine can be in, starting from the initial
state for loaded memory `mem0` and pending input `inp`. -/
inductive Reachable (mem0 : Nat → Nat) (inp : List Nat) : VMState → Prop
  | init : Reachable mem0 inp (initState mem0 inp)
  | succ {s : VMState} : Reachable mem0 inp s → Reachable mem0 inp (step s)

/-! ## Helper lemmas -/

theorem setReg_same (r : Nat → Nat) (a v : Nat) : setReg r a v a = v % 65536 := by
  simp [setReg]

theorem setReg_other (r : Nat → Nat) (a v b : Nat) (h : b ≠ a) : setReg r a v b = r b := by
  simp [setReg, h]

theorem setMem_same (m : Nat → Nat) (a v : Nat) : setMem m a v a = v % 65536 := by
  simp [setMem]

theorem setMem_other (m : Nat → Nat) (a v b : Nat) (h : b ≠ a) : setMem m a v b = m b := by
  simp [setMem, h]

theorem R0_le (instr : Nat) : R0 instr ≤ 7 := Nat.and_le_right

theorem R1_le (instr : Nat) : R1 instr ≤ 7 := Nat.and_le_right

/-! ## Claim theorems -/

/-- Claim C2 (code bug): the C declares `u16 memory_[kMaxMemory]` with
`kMaxMemory = UINT16_MAX = 65535`, so the store has 65535 words and the
largest valid index is 0xFFFE; an access at address 0xFFFF is out of
bounds, although the memory-map comment in the code and the spec demand
65536 words with 0xFFFF valid. -/
theorem C2_memory_size_off_by_one :
    kMaxMemory = 65535 ∧ ¬ (0xFFFF < kMaxMemory) ∧ 0xFFFE < kMaxMemory ∧
    ¬ (65536 ≤ kMaxMemory) := by decide

/-- Claim C3 (code bug): loading the accepted image `[0x30, 0x00, 0x48]`
(origin 0x3000, a single body byte, so `N / 2 = 0` words) must leave
every word of a fresh memory unchanged, but the swap loop runs `N` times
(`N` counts bytes, not words) and turns `Memory[0x3000]` into 0x4800. -/
theorem C3_swap_loop_counts_bytes :
    (LoadImage zeroMem (some [0x30, 0x00, 0x48])).map (fun m => m 0x3000) = some 0x4800 ∧
    zeroMem 0x3000 = 0 := by decide

/-- Claim C8 (code bug): the guard rejects exactly null, empty and
oversized buffers, but a 1-byte buffer passes it and then
`image_size - sizeof(origin)` underflows in size_t to 2^64 - 1, making
the subsequent memcpy undefined behavior instead of a successful load. -/
theorem C8_one_byte_image_underflow :
    LoadImage zeroMem (some [0x30]) = none ∧
    [(0x30 : Nat)].length ≠ 0 ∧ [(0x30 : Nat)].length ≤ kMaxMemory ∧
    bodyByteCount 1 = 2 ^ 64 - 1 ∧
    LoadImage zeroMem none = none ∧
    LoadImage zeroMem (some []) = none ∧
    LoadImage zeroMem (some (List.replicate 65536 0)) = none ∧
    (LoadImage zeroMem (some [0x30, 0x00, 0x11, 0x22])).isSome = true := by
  refine ⟨rfl, by decide, by decide, by decide, rfl, rfl, ?_, rfl⟩
  simp only [LoadImage]
  rw [List.length_replicate]
  norm_num

/-- Claim C4 (corrected): the loader never checks that origin plus word
count fits in the address space.  Every image of 2 to 65535 bytes loads
successfully, and the concrete image with origin 0xFFFF and four body
bytes (origin + word count = 0x10001 > 65536) silently writes the word
0x0304 at address 0x10000, past the end of the address space.  (The
claim as stated also promised success for 1-byte images; those instead
hit the size underflow of C8.) -/
theorem C4_no_address_space_check (bytes : List Nat)
    (h2 : 2 ≤ bytes.length) (h3 : bytes.length ≤ kMaxMemory) :
    (LoadImage zeroMem (some bytes)).isSome = true ∧
    (LoadImage zeroMem (some [0xFF, 0xFF, 1, 2, 3, 4])).map (fun m => m 65536) =
      some 0x0304 ∧
    zeroMem 65536 = 0 := by
  refine ⟨?_, by decide, rfl⟩
  rcases bytes with _ | ⟨b0, _ | ⟨b1, body⟩⟩
  · simp at h2
  · simp at h2
  · have hlen : ¬ ((b0 :: b1 :: body).length = 0) := by simp
    have hbig : ¬ ((b0 :: b1 :: body).length > kMaxMemory) := by omega
    simp only [LoadImage, if_neg hlen, if_neg hbig, Option.isSome_some]

/-- Witness for C4 at the two-byte image `[0x30, 0x00]`. -/
theorem C4_no_address_space_check_witness :
    2 ≤ [(0x30 : Nat), 0x00].length ∧ [(0x30 : Nat), 0x00].length ≤ kMaxMemory ∧
    (LoadImage zeroMem (some [0x30, 0x00])).isSome = true :=
  ⟨by decide, by decide,
    (C4_no_address_space_check [0x30, 0x00] (by decide) (by decide)).1⟩

/-- Counterexample for C4 as originally stated: the 1-byte image `[0x30]`
is non-null, non-empty and within the size bound, yet load does not
succeed (the body-size computation underflows; undefined behavior in C,
failure in the model). -/
theorem C4_counterexample_one_byte_image :
    LoadImage zeroMem (some [0x30]) = none ∧
    (some [(0x30 : Nat)] ≠ none) ∧
    [(0x30 : Nat)].length ≠ 0 ∧ [(0x30 : Nat)].length ≤ kMaxMemory :=
  ⟨rfl, by decide, by decide, by decide⟩

/-- Claim C1 (corrected): the keyboard poll happens only on a read at the
status address 0xFE00, not on every read.  Such a read sets
`Memory[0xFE00]` to 0x8000 and copies the pending character into
`Memory[0xFE02]` (consuming it) when input is pending, clears
`Memory[0xFE00]` otherwise, and returns the updated status word; every
other cell is untouched.  A read at any other address returns the stored
word and changes nothing. -/
theorem C1_poll_only_at_status_address (mem : Nat → Nat) (inp : List Nat) (addr : Nat) :
    (addr ≠ kKeyboardStatus →
      (MemRead mem inp addr).1 = mem ∧ (MemRead mem inp addr).2.1 = inp ∧
      (MemRead mem inp addr).2.2 = mem addr) ∧
    (addr = kKeyboardStatus → ∀ c rest, inp = c :: rest →
      (MemRead mem inp addr).1 kKeyboardStatus = 0x8000 ∧
      (MemRead mem inp addr).1 kKeyboardStatus >>> 15 = 1 ∧
      (MemRead mem inp addr).1 kKeyboardData = c % 256 ∧
      (∀ a, a ≠ kKeyboardStatus → a ≠ kKeyboardData → (MemRead mem inp addr).1 a = mem a) ∧
      (MemRead mem inp addr).2.1 = rest ∧
      (MemRead mem inp addr).2.2 = 0x8000) ∧
    (addr = kKeyboardStatus → inp = [] →
      (MemRead mem inp addr).1 kKeyboardStatus = 0 ∧
      (∀ a, a ≠ kKeyboardStatus → (MemRead mem inp addr).1 a = mem a) ∧
      (MemRead mem inp addr).2.1 = [] ∧
      (MemRead mem inp addr).2.2 = 0) := by
  refine ⟨?_, ?_, ?_⟩
  · intro h
    simp [MemRead, h]
  · rintro rfl c rest rfl
    have hc : c % 256 % 65536 = c % 256 := Nat.mod_eq_of_lt (by omega)
    refine ⟨by simp [MemRead, setMem], by simp [MemRead, setMem],
      by simp [MemRead, setMem, hc], ?_, by simp [MemRead], by simp [MemRead, setMem]⟩
    intro a h1 h2
    simp [MemRead, setMem, h1, h2]
  · rintro rfl rfl
    refine ⟨by simp [MemRead, setMem], ?_, by simp [MemRead], by simp [MemRead, setMem]⟩
    intro a h1
    simp [MemRead, setMem, h1]

/-- Witness for C1 at a pending read of the status address. -/
theorem C1_poll_only_at_status_address_witness :
    (MemRead zeroMem [66] kKeyboardStatus).1 kKeyboardStatus = 0x8000 ∧
    (MemRead zeroMem [66] kKeyboardStatus).1 kKeyboardData = 66 ∧
    (MemRead zeroMem [66] kKeyboardStatus).2.1 = [] :=
  have h := (C1_poll_only_at_status_address zeroMem [66] kKeyboardStatus).2.1 rfl 66 [] rfl
  ⟨h.1, h.2.2.1, h.2.2.2.2.1⟩

/-- Counterexample for C1 as stated: a read at the ordinary address
0x3000 while a key is pending performs no poll at all — bit 15 of
`Memory[0xFE00]` stays 0, no character is copied to `Memory[0xFE02]`,
and the pending input is not consumed. -/
theorem C1_counterexample_ordinary_read_does_not_poll :
    ([(65 : Nat)] ≠ []) ∧
    (MemRead zeroMem [65] 0x3000).1 kKeyboardStatus >>> 15 = 0 ∧
    (MemRead zeroMem [65] 0x3000).1 kKeyboardStatus = 0 ∧
    (MemRead zeroMem [65] 0x3000).1 kKeyboardData = 0 ∧
    (MemRead zeroMem [65] 0x3000).2.1 = [65] := by decide

/-- A number with zero low bits ored with a number below the cut is their
sum. -/
theorem lor_high_low (a b i : Nat) (h : b < 2 ^ i) : a <<< i ||| b = 2 ^ i * a + b := by
  apply Nat.eq_of_testBit_eq
  intro j
  rw [Nat.testBit_lor, Nat.testBit_mul_pow_two_add a h j]
  by_cases hj : j < i
  · rw [if_pos hj, Nat.testBit_shiftLeft]
    simp [Nat.not_le.mpr hj]
  · rw [if_neg hj, Nat.testBit_shiftLeft]
    have hbj : b.testBit j = false :=
      Nat.testBit_eq_false_of_lt
        (lt_of_lt_of_le h (Nat.pow_le_pow_right (by norm_num) (Nat.le_of_not_lt hj)))
    simp [Nat.le_of_not_lt hj, hbj]

/-- In the sign-extending branch (high bit of the field set), SignExtend
returns the value with all bits from `n` up filled in. -/
theorem SignExtend_hi (x n : Nat) (hn16 : n ≤ 16) (hx : x < 2 ^ n)
    (h1 : (x >>> (n - 1)) &&& 1 = 1) : SignExtend x n = 2 ^ 16 - 2 ^ n + x := by
  have hL : (0xFFFF : Nat) <<< n ||| x = 2 ^ n * 0xFFFF + x := lor_high_low 0xFFFF x n hx
  simp only [SignExtend, if_pos h1, hL]
  have ht1 : 1 ≤ 2 ^ n := Nat.one_le_two_pow
  have htM : 2 ^ n ≤ 65536 := by
    calc 2 ^ n ≤ 2 ^ 16 := Nat.pow_le_pow_right (by norm_num) hn16
    _ = 65536 := by norm_num
  have h216 : (2 : Nat) ^ 16 = 65536 := by norm_num
  have key : 2 ^ n * 65535 + x = (2 ^ 16 - 2 ^ n + x) + 65536 * (2 ^ n - 1) := by omega
  rw [key, Nat.add_mul_mod_self_left, Nat.mod_eq_of_lt (by omega)]

/-- Claim C10 (confirmed): SignExtend implements two to the complement
sign extension for the widths 5, 6, 9 and 11.  When bit n-1 of x is set
the result is x - 2^n modulo 2^16 (all bits n..15 set); otherwise x is
returned unchanged; the two worked examples of the spec hold. -/
theorem C10_sign_extension (n : Nat) (hn : n = 5 ∨ n = 6 ∨ n = 9 ∨ n = 11)
    (x : Nat) (hx : x < 2 ^ n) :
    ((x >>> (n - 1)) &&& 1 = 1 →
      SignExtend x n = (2 ^ 16 + x - 2 ^ n) % 2 ^ 16 ∧
      SignExtend x n = 2 ^ 16 - 2 ^ n + x ∧
      (∀ k, k < 16 → n ≤ k → (SignExtend x n >>> k) &&& 1 = 1)) ∧
    ((x >>> (n - 1)) &&& 1 = 0 → SignExtend x n = x) ∧
    SignExtend 0b11111 5 = 0xFFFF ∧ SignExtend 0b00001 5 = 0x0001 := by
  rcases hn with rfl | rfl | rfl | rfl <;>
  exact ⟨fun h1 => ⟨by rw [SignExtend_hi x _ (by norm_num) hx h1]; omega,
      SignExtend_hi x _ (by norm_num) hx h1,
      fun k hk hnk => by
        rw [SignExtend_hi x _ (by norm_num) hx h1,
          Nat.shiftRight_eq_div_pow, Nat.and_one_is_mod]
        interval_cases k <;> omega⟩,
    fun h0 => by simp only [SignExtend]; rw [if_neg (by simp [h0])],
    by decide, by decide⟩

/-- Witness for C10 at width 5 and the field value 0b10001. -/
theorem C10_sign_extension_witness :
    ((0b10001 : Nat) < 2 ^ 5) ∧
    ((((0b10001 : Nat) >>> 4) &&& 1 = 1) → SignExtend 0b10001 5 = 0xFFF1) :=
  ⟨by decide, fun h =>
    ((C10_sign_extension 5 (Or.inl rfl) 0b10001 (by decide)).1 h).2.1.trans (by decide)⟩

/-! ## Lemmas about the execution step -/

theorem step_eq (s : VMState) (hr : s.running = true) :
    step s = exec s (fetchedMem s) (fetchedInput s)
      (setReg s.reg kRPC (s.reg kRPC + 1)) (fetched s) := by
  simp only [step, hr, if_true]
  rfl

theorem step_eq_not_running (s : VMState) (hr : ¬ (s.running = true)) : step s = s := by
  simp [step, hr]

theorem UpdateFlag_apply_ne (reg : Nat → Nat) (r b : Nat) (h : b ≠ kRCond) :
    UpdateFlag reg r b = reg b := by
  unfold UpdateFlag
  split_ifs <;> simp [setReg, h]

theorem UpdateFlag_cond_cases (reg : Nat → Nat) (r : Nat) :
    UpdateFlag reg r kRCond = kFlPos ∨ UpdateFlag reg r kRCond = kFlZro ∨
    UpdateFlag reg r kRCond = kFlNeg := by
  unfold UpdateFlag
  split_ifs
  · exact Or.inr (Or.inl (setReg_same _ _ _))
  · exact Or.inr (Or.inr (setReg_same _ _ _))
  · exact Or.inl (setReg_same _ _ _)

theorem setReg_pc_at_R0 (r : Nat → Nat) (instr v : Nat) :
    setReg r kRPC v (R0 instr) = r (R0 instr) := by
  apply setReg_other
  have := R0_le instr
  show R0 instr ≠ 8
  omega

theorem setReg_pc_at_R1 (r : Nat → Nat) (instr v : Nat) :
    setReg r kRPC v (R1 instr) = r (R1 instr) := by
  apply setReg_other
  have := R1_le instr
  show R1 instr ≠ 8
  omega

theorem setReg_R0_at_pc (r : Nat → Nat) (instr v : Nat) :
    setReg r (R0 instr) v kRPC = r kRPC := by
  apply setReg_other
  have := R0_le instr
  show (8 : Nat) ≠ R0 instr
  omega

theorem setReg_zero_at_pc (r : Nat → Nat) (v : Nat) :
    setReg r kR0 v kRPC = r kRPC :=
  setReg_other _ _ _ _ (by decide)

theorem setMem_WF (m : Nat → Nat) (a v : Nat) (h : WFmem m) : WFmem (setMem m a v) := by
  intro b
  unfold setMem
  split_ifs
  · exact Nat.mod_lt _ (by norm_num)
  · exact h b

theorem MemRead_WF (mem : Nat → Nat) (inp : List Nat) (addr : Nat) (h : WFmem mem) :
    WFmem (MemRead mem inp addr).1 := by
  unfold MemRead
  split_ifs
  · cases inp with
    | nil => exact setMem_WF _ _ _ h
    | cons c rest => exact setMem_WF _ _ _ (setMem_WF _ _ _ h)
  · exact h

theorem MemRead_val_lt (mem : Nat → Nat) (inp : List Nat) (addr : Nat) (h : WFmem mem) :
    (MemRead mem inp addr).2.2 < 65536 := by
  unfold MemRead
  split_ifs
  · cases inp with
    | nil => exact setMem_WF _ _ _ h _
    | cons c rest => exact setMem_WF _ _ _ (setMem_WF _ _ _ h) _
  · exact h addr

/-! ## Equations of exec, one per opcode needed by the claims -/

theorem exec_of_op_bad (s : VMState) (m1 : Nat → Nat) (i1 : List Nat) (r1 : Nat → Nat)
    (instr : Nat) (h : instr >>> 12 = kOpRti ∨ instr >>> 12 = kOpRes) :
    exec s m1 i1 r1 instr =
      { s with
          mem := m1
          input := i1
          reg := r1
          running := false
          output := s.output ++ badOpcodeMsg } := by
  rcases h with h | h <;> (simp only [exec]; rw [h]) <;> norm_num

theorem exec_of_op_br (s : VMState) (m1 : Nat → Nat) (i1 : List Nat) (r1 : Nat → Nat)
    (instr : Nat) (h : instr >>> 12 = kOpBr) :
    exec s m1 i1 r1 instr =
      { s with
          mem := m1
          input := i1
          reg := if r1 kRCond &&& ((instr >>> 9) &&& 0x7) ≠ 0 then setReg r1 kRPC (r1 kRPC + SignExtend (instr &&& 0x1FF) 9) else r1 } := by
  simp only [exec]; rw [h]; norm_num

theorem exec_of_op_jsr (s : VMState) (m1 : Nat → Nat) (i1 : List Nat) (r1 : Nat → Nat)
    (instr : Nat) (h : instr >>> 12 = kOpJsr) :
    exec s m1 i1 r1 instr =
      { s with
          mem := m1
          input := i1
          reg := if (instr >>> 11) &&& 1 = 1 then setReg (setReg r1 kR7 (r1 kRPC)) kRPC (setReg r1 kR7 (r1 kRPC) kRPC + SignExtend (instr &&& 0x7FF) 11) else setReg (setReg r1 kR7 (r1 kRPC)) kRPC (setReg r1 kR7 (r1 kRPC) (R1 instr)) } := by
  simp only [exec]; rw [h]; norm_num

theorem exec_of_op_ld (s : VMState) (m1 : Nat → Nat) (i1 : List Nat) (r1 : Nat → Nat)
    (instr : Nat) (h : instr >>> 12 = kOpLd) :
    exec s m1 i1 r1 instr =
      { s with
          mem := (MemRead m1 i1 ((r1 kRPC + SignExtend (instr &&& 0x1FF) 9) % 65536)).1
          input := (MemRead m1 i1 ((r1 kRPC + SignExtend (instr &&& 0x1FF) 9) % 65536)).2.1
          reg := UpdateFlag (setReg r1 (R0 instr) (MemRead m1 i1 ((r1 kRPC + SignExtend (instr &&& 0x1FF) 9) % 65536)).2.2) (R0 instr) } := by
  simp only [exec]; rw [h]; norm_num

theorem exec_of_op_ldi (s : VMState) (m1 : Nat → Nat) (i1 : List Nat) (r1 : Nat → Nat)
    (instr : Nat) (h : instr >>> 12 = kOpLdi) :
    exec s m1 i1 r1 instr =
      { s with
          mem := (MemRead (MemRead m1 i1 ((r1 kRPC + SignExtend (instr &&& 0x1FF) 9) % 65536)).1 (MemRead m1 i1 ((r1 kRPC + SignExtend (instr &&& 0x1FF) 9) % 65536)).2.1 (MemRead m1 i1 ((r1 kRPC + SignExtend (instr &&& 0x1FF) 9) % 65536)).2.2).1
          input := (MemRead (MemRead m1 i1 ((r1 kRPC + SignExtend (instr &&& 0x1FF) 9) % 65536)).1 (MemRead m1 i1 ((r1 kRPC + SignExtend (instr &&& 0x1FF) 9) % 65536)).2.1 (MemRead m1 i1 ((r1 kRPC + SignExtend (instr &&& 0x1FF) 9) % 65536)).2.2).2.1
          reg := UpdateFlag (setReg r1 (R0 instr) (MemRead (MemRead m1 i1 ((r1 kRPC + SignExtend (instr &&& 0x1FF) 9) % 65536)).1 (MemRead m1 i1 ((r1 kRPC + SignExtend (instr &&& 0x1FF) 9) % 65536)).2.1 (MemRead m1 i1 ((r1 kRPC + SignExtend (instr &&& 0x1FF) 9) % 65536)).2.2).2.2) (R0 instr) } := by
  simp only [exec]; rw [h]; norm_num

theorem exec_of_op_lea (s : VMState) (m1 : Nat → Nat) (i1 : List Nat) (r1 : Nat → Nat)
    (instr : Nat) (h : instr >>> 12 = kOpLea) :
    exec s m1 i1 r1 instr =
      { s with
          mem := m1
          input := i1
          reg := UpdateFlag (setReg r1 (R0 instr) (r1 kRPC + SignExtend (instr &&& 0x1FF) 9)) (R0 instr) } := by
  simp only [exec]; rw [h]; norm_num

theorem exec_of_op_st (s : VMState) (m1 : Nat → Nat) (i1 : List Nat) (r1 : Nat → Nat)
    (instr : Nat) (h : instr >>> 12 = kOpSt) :
    exec s m1 i1 r1 instr =
      { s with
          mem := setMem m1 ((r1 kRPC + SignExtend (instr &&& 0x1FF) 9) % 65536) (r1 (R0 instr))
          input := i1
          reg := r1 } := by
  simp only [exec]; rw [h]; norm_num

theorem exec_of_op_sti (s : VMState) (m1 : Nat → Nat) (i1 : List Nat) (r1 : Nat → Nat)
    (instr : Nat) (h : instr >>> 12 = kOpSti) :
    exec s m1 i1 r1 instr =
      { s with
          mem := setMem (MemRead m1 i1 ((r1 kRPC + SignExtend (instr &&& 0x1FF) 9) % 65536)).1 (MemRead m1 i1 ((r1 kRPC + SignExtend (instr &&& 0x1FF) 9) % 65536)).2.2 (r1 (R0 instr))
          input := (MemRead m1 i1 ((r1 kRPC + SignExtend (instr &&& 0x1FF) 9) % 65536)).2.1
          reg := r1 } := by
  simp only [exec]; rw [h]; norm_num

theorem exec_of_op_add (s : VMState) (m1 : Nat → Nat) (i1 : List Nat) (r1 : Nat → Nat)
    (instr : Nat) (h : instr >>> 12 = kOpAdd) :
    exec s m1 i1 r1 instr =
      { s with
          mem := m1
          input := i1
          reg := UpdateFlag (setReg r1 (R0 instr) (if (instr >>> 5) &&& 1 = 1 then r1 (R1 instr) + SignExtend (instr &&& 0x1F) 5 else r1 (R1 instr) + r1 (R2 instr))) (R0 instr) } := by
  simp only [exec]; rw [h]; norm_num

theorem exec_of_op_and (s : VMState) (m1 : Nat → Nat) (i1 : List Nat) (r1 : Nat → Nat)
    (instr : Nat) (h : instr >>> 12 = kOpAnd) :
    exec s m1 i1 r1 instr =
      { s with
          mem := m1
          input := i1
          reg := UpdateFlag (setReg r1 (R0 instr) (if (instr >>> 5) &&& 1 = 1 then r1 (R1 instr) &&& SignExtend (instr &&& 0x1F) 5 else r1 (R1 instr) &&& r1 (R2 instr))) (R0 instr) } := by
  simp only [exec]; rw [h]; norm_num

theorem exec_of_op_jmp (s : VMState) (m1 : Nat → Nat) (i1 : List Nat) (r1 : Nat → Nat)
    (instr : Nat) (h : instr >>> 12 = kOpJmp) :
    exec s m1 i1 r1 instr =
      { s with
          mem := m1
          input := i1
          reg := setReg r1 kRPC (r1 (R1 instr)) } := by
  simp only [exec]; rw [h]; norm_num

theorem exec_of_op_ldr (s : VMState) (m1 : Nat → Nat) (i1 : List Nat) (r1 : Nat → Nat)
    (instr : Nat) (h : instr >>> 12 = kOpLdr) :
    exec s m1 i1 r1 instr =
      { s with
          mem := (MemRead m1 i1 ((r1 (R1 instr) + SignExtend (instr &&& 0x3F) 6) % 65536)).1
          input := (MemRead m1 i1 ((r1 (R1 instr) + SignExtend (instr &&& 0x3F) 6) % 65536)).2.1
          reg := UpdateFlag (setReg r1 (R0 instr) (MemRead m1 i1 ((r1 (R1 instr) + SignExtend (instr &&& 0x3F) 6) % 65536)).2.2) (R0 instr) } := by
  simp only [exec]; rw [h]; norm_num

theorem exec_of_op_not (s : VMState) (m1 : Nat → Nat) (i1 : List Nat) (r1 : Nat → Nat)
    (instr : Nat) (h : instr >>> 12 = kOpNot) :
    exec s m1 i1 r1 instr =
      { s with
          mem := m1
          input := i1
          reg := UpdateFlag (setReg r1 (R0 instr) (65535 ^^^ r1 (R1 instr))) (R0 instr) } := by
  simp only [exec]; rw [h]; norm_num

theorem exec_of_op_str (s : VMState) (m1 : Nat → Nat) (i1 : List Nat) (r1 : Nat → Nat)
    (instr : Nat) (h : instr >>> 12 = kOpStr) :
    exec s m1 i1 r1 instr =
      { s with
          mem := setMem m1 ((r1 (R1 instr) + SignExtend (instr &&& 0x3F) 6) % 65536) (r1 (R0 instr))
          input := i1
          reg := r1 } := by
  simp only [exec]; rw [h]; norm_num

theorem exec_of_trap_getc (s : VMState) (m1 : Nat → Nat) (i1 : List Nat) (r1 : Nat → Nat)
    (instr : Nat) (h : instr >>> 12 = kOpTrap) (hc : instr &&& 0xFF = kTrapGetc) :
    exec s m1 i1 r1 instr =
      { s with
          mem := m1
          input := (getchar i1).2
          reg := UpdateFlag (setReg r1 kR0 (toU16 (getchar i1).1)) kR0 } := by
  simp only [exec]; rw [h, hc]; norm_num

theorem exec_of_trap_out (s : VMState) (m1 : Nat → Nat) (i1 : List Nat) (r1 : Nat → Nat)
    (instr : Nat) (h : instr >>> 12 = kOpTrap) (hc : instr &&& 0xFF = kTrapOut) :
    exec s m1 i1 r1 instr =
      { s with
          mem := m1
          input := i1
          reg := r1
          output := s.output ++ [r1 kR0 % 256] } := by
  simp only [exec]; rw [h, hc]; norm_num

theorem exec_of_trap_puts (s : VMState) (m1 : Nat → Nat) (i1 : List Nat) (r1 : Nat → Nat)
    (instr : Nat) (h : instr >>> 12 = kOpTrap) (hc : instr &&& 0xFF = kTrapPuts) :
    exec s m1 i1 r1 instr =
      { s with
          mem := m1
          input := i1
          reg := r1
          output := s.output ++ scanPuts m1 kScanFuel (r1 kR0) } := by
  simp only [exec]; rw [h, hc]; norm_num

theorem exec_of_trap_in (s : VMState) (m1 : Nat → Nat) (i1 : List Nat) (r1 : Nat → Nat)
    (instr : Nat) (h : instr >>> 12 = kOpTrap) (hc : instr &&& 0xFF = kTrapIn) :
    exec s m1 i1 r1 instr =
      { s with
          mem := m1
          input := (getchar i1).2
          reg := UpdateFlag (setReg r1 kR0 (toU16 (toChar8 (getchar i1).1))) kR0
          output := s.output ++ promptMsg ++ [(toChar8 (getchar i1).1 % 256).toNat] } := by
  simp only [exec]; rw [h, hc]; norm_num

theorem exec_of_trap_putsp (s : VMState) (m1 : Nat → Nat) (i1 : List Nat) (r1 : Nat → Nat)
    (instr : Nat) (h : instr >>> 12 = kOpTrap) (hc : instr &&& 0xFF = kTrapPutsp) :
    exec s m1 i1 r1 instr =
      { s with
          mem := m1
          input := i1
          reg := r1
          output := s.output ++ scanPutsp m1 kScanFuel (r1 kR0) } := by
  simp only [exec]; rw [h, hc]; norm_num

theorem exec_of_trap_halt (s : VMState) (m1 : Nat → Nat) (i1 : List Nat) (r1 : Nat → Nat)
    (instr : Nat) (h : instr >>> 12 = kOpTrap) (hc : instr &&& 0xFF = kTrapHalt) :
    exec s m1 i1 r1 instr =
      { s with
          mem := m1
          input := i1
          reg := r1
          running := false
          output := s.output ++ haltMsg } := by
  simp only [exec]; rw [h, hc]; norm_num

theorem exec_of_trap_other (s : VMState) (m1 : Nat → Nat) (i1 : List Nat) (r1 : Nat → Nat)
    (instr : Nat) (h : instr >>> 12 = kOpTrap)
    (hc : instr &&& 0xFF ≠ kTrapGetc ∧ instr &&& 0xFF ≠ kTrapOut ∧
      instr &&& 0xFF ≠ kTrapPuts ∧ instr &&& 0xFF ≠ kTrapIn ∧
      instr &&& 0xFF ≠ kTrapPutsp ∧ instr &&& 0xFF ≠ kTrapHalt) :
    exec s m1 i1 r1 instr =
      { s with
          mem := m1
          input := i1
          reg := r1 } := by
  obtain ⟨h1, h2, h3, h4, h5, h6⟩ := hc
  simp only [exec]; rw [h]; norm_num
  rw [if_neg h1, if_neg h2, if_neg h3, if_neg h4, if_neg h5, if_neg h6]

theorem exec_of_op_ge16 (s : VMState) (m1 : Nat → Nat) (i1 : List Nat) (r1 : Nat → Nat)
    (instr : Nat) (h : 16 ≤ instr >>> 12) :
    exec s m1 i1 r1 instr =
      { s with
          mem := m1
          input := i1
          reg := r1
          running := false
          output := s.output ++ badOpcodeMsg } := by
  simp only [exec]
  iterate 14 rw [if_neg (by intro he; exact absurd (he ▸ h) (by decide))]

/-- Case enumeration of the 4-bit opcode field plus the impossible
above-16 case. -/
theorem op_cases (instr : Nat) :
    instr >>> 12 = 0 ∨ instr >>> 12 = 1 ∨ instr >>> 12 = 2 ∨ instr >>> 12 = 3 ∨
    instr >>> 12 = 4 ∨ instr >>> 12 = 5 ∨ instr >>> 12 = 6 ∨ instr >>> 12 = 7 ∨
    instr >>> 12 = 8 ∨ instr >>> 12 = 9 ∨ instr >>> 12 = 10 ∨ instr >>> 12 = 11 ∨
    instr >>> 12 = 12 ∨ instr >>> 12 = 13 ∨ instr >>> 12 = 14 ∨ instr >>> 12 = 15 ∨
    16 ≤ instr >>> 12 := by
  omega

/-- Case enumeration of the trap-code switch. -/
theorem trap_code_cases (c : Nat) :
    c = 0x20 ∨ c = 0x21 ∨ c = 0x22 ∨ c = 0x23 ∨ c = 0x24 ∨ c = 0x25 ∨
    (c ≠ 0x20 ∧ c ≠ 0x21 ∧ c ≠ 0x22 ∧ c ≠ 0x23 ∧ c ≠ 0x24 ∧ c ≠ 0x25) := by
  omega

theorem R0_ne_pc (instr : Nat) : R0 instr ≠ kRPC := by
  have := R0_le instr
  show R0 instr ≠ 8
  omega

theorem updflag_set_pc (r1 : Nat → Nat) (a v x : Nat) (ha : a ≠ kRPC) :
    UpdateFlag (setReg r1 a v) x kRPC = r1 kRPC := by
  rw [UpdateFlag_apply_ne _ _ _ (by decide), setReg_other _ _ _ _ (Ne.symm ha)]

/-- Apart from BR, JSR and JMP, no opcode writes the program counter
after the fetch increment. -/
theorem exec_pc (s : VMState) (m1 : Nat → Nat) (i1 : List Nat) (r1 : Nat → Nat)
    (instr : Nat) (h0 : instr >>> 12 ≠ kOpBr) (h4 : instr >>> 12 ≠ kOpJsr)
    (hC : instr >>> 12 ≠ kOpJmp) :
    (exec s m1 i1 r1 instr).reg kRPC = r1 kRPC := by
  rcases op_cases instr with h|h|h|h|h|h|h|h|h|h|h|h|h|h|h|h|h
  · exact absurd h h0
  · rw [exec_of_op_add _ _ _ _ _ h]; exact updflag_set_pc _ _ _ _ (R0_ne_pc instr)
  · rw [exec_of_op_ld _ _ _ _ _ h]; exact updflag_set_pc _ _ _ _ (R0_ne_pc instr)
  · rw [exec_of_op_st _ _ _ _ _ h]
  · exact absurd h h4
  · rw [exec_of_op_and _ _ _ _ _ h]; exact updflag_set_pc _ _ _ _ (R0_ne_pc instr)
  · rw [exec_of_op_ldr _ _ _ _ _ h]; exact updflag_set_pc _ _ _ _ (R0_ne_pc instr)
  · rw [exec_of_op_str _ _ _ _ _ h]
  · rw [exec_of_op_bad _ _ _ _ _ (Or.inl h)]
  · rw [exec_of_op_not _ _ _ _ _ h]; exact updflag_set_pc _ _ _ _ (R0_ne_pc instr)
  · rw [exec_of_op_ldi _ _ _ _ _ h]; exact updflag_set_pc _ _ _ _ (R0_ne_pc instr)
  · rw [exec_of_op_sti _ _ _ _ _ h]
  · exact absurd h hC
  · rw [exec_of_op_bad _ _ _ _ _ (Or.inr h)]
  · rw [exec_of_op_lea _ _ _ _ _ h]; exact updflag_set_pc _ _ _ _ (R0_ne_pc instr)
  · rcases trap_code_cases (instr &&& 0xFF) with hc|hc|hc|hc|hc|hc|hc
    · rw [exec_of_trap_getc _ _ _ _ _ h hc]; exact updflag_set_pc _ _ _ _ (by decide)
    · rw [exec_of_trap_out _ _ _ _ _ h hc]
    · rw [exec_of_trap_puts _ _ _ _ _ h hc]
    · rw [exec_of_trap_in _ _ _ _ _ h hc]; exact updflag_set_pc _ _ _ _ (by decide)
    · rw [exec_of_trap_putsp _ _ _ _ _ h hc]
    · rw [exec_of_trap_halt _ _ _ _ _ h hc]
    · rw [exec_of_trap_other _ _ _ _ _ h hc]
  · rw [exec_of_op_ge16 _ _ _ _ _ h]

/-- Every opcode either leaves the condition register alone or sets it to
one of the three flags. -/
theorem exec_cond_cases (s : VMState) (m1 : Nat → Nat) (i1 : List Nat) (r1 : Nat → Nat)
    (instr : Nat) :
    (exec s m1 i1 r1 instr).reg kRCond = r1 kRCond ∨
    ((exec s m1 i1 r1 instr).reg kRCond = kFlPos ∨
     (exec s m1 i1 r1 instr).reg kRCond = kFlZro ∨
     (exec s m1 i1 r1 instr).reg kRCond = kFlNeg) := by
  rcases op_cases instr with h|h|h|h|h|h|h|h|h|h|h|h|h|h|h|h|h
  · rw [exec_of_op_br _ _ _ _ _ h]
    left; dsimp only
    split_ifs
    · exact setReg_other _ _ _ _ (show kRCond ≠ kRPC by decide)
    · rfl
  · rw [exec_of_op_add _ _ _ _ _ h]; right; exact UpdateFlag_cond_cases _ _
  · rw [exec_of_op_ld _ _ _ _ _ h]; right; exact UpdateFlag_cond_cases _ _
  · rw [exec_of_op_st _ _ _ _ _ h]; left; rfl
  · rw [exec_of_op_jsr _ _ _ _ _ h]
    left; dsimp only
    split_ifs <;>
      (rw [setReg_other _ _ _ _ (show kRCond ≠ kRPC by decide)];
       exact setReg_other _ _ _ _ (show kRCond ≠ kR7 by decide))
  · rw [exec_of_op_and _ _ _ _ _ h]; right; exact UpdateFlag_cond_cases _ _
  · rw [exec_of_op_ldr _ _ _ _ _ h]; right; exact UpdateFlag_cond_cases _ _
  · rw [exec_of_op_str _ _ _ _ _ h]; left; rfl
  · rw [exec_of_op_bad _ _ _ _ _ (Or.inl h)]; left; rfl
  · rw [exec_of_op_not _ _ _ _ _ h]; right; exact UpdateFlag_cond_cases _ _
  · rw [exec_of_op_ldi _ _ _ _ _ h]; right; exact UpdateFlag_cond_cases _ _
  · rw [exec_of_op_sti _ _ _ _ _ h]; left; rfl
  · rw [exec_of_op_jmp _ _ _ _ _ h]; left; dsimp only; exact setReg_other _ _ _ _ (show kRCond ≠ kRPC by decide)
  · rw [exec_of_op_bad _ _ _ _ _ (Or.inr h)]; left; rfl
  · rw [exec_of_op_lea _ _ _ _ _ h]; right; exact UpdateFlag_cond_cases _ _
  · rcases trap_code_cases (instr &&& 0xFF) with hc|hc|hc|hc|hc|hc|hc
    · rw [exec_of_trap_getc _ _ _ _ _ h hc]; right; exact UpdateFlag_cond_cases _ _
    · rw [exec_of_trap_out _ _ _ _ _ h hc]; left; rfl
    · rw [exec_of_trap_puts _ _ _ _ _ h hc]; left; rfl
    · rw [exec_of_trap_in _ _ _ _ _ h hc]; right; exact UpdateFlag_cond_cases _ _
    · rw [exec_of_trap_putsp _ _ _ _ _ h hc]; left; rfl
    · rw [exec_of_trap_halt _ _ _ _ _ h hc]; left; rfl
    · rw [exec_of_trap_other _ _ _ _ _ h hc]; left; rfl
  · rw [exec_of_op_ge16 _ _ _ _ _ h]; left; rfl

/-- The loop stops exactly on the two reserved opcodes and on TRAP HALT
(for a running state; the fetched word is below 2^16). -/
theorem exec_halts (s : VMState) (m1 : Nat → Nat) (i1 : List Nat) (r1 : Nat → Nat)
    (instr : Nat) (hr : s.running = true) (h16 : instr >>> 12 < 16) :
    ((exec s m1 i1 r1 instr).running = false ↔
      (instr >>> 12 = kOpRti ∨ instr >>> 12 = kOpRes ∨
        (instr >>> 12 = kOpTrap ∧ instr &&& 0xFF = kTrapHalt))) := by
  rcases op_cases instr with h|h|h|h|h|h|h|h|h|h|h|h|h|h|h|h|h
  · rw [exec_of_op_br _ _ _ _ _ h]; simp [hr, h]
  · rw [exec_of_op_add _ _ _ _ _ h]; simp [hr, h]
  · rw [exec_of_op_ld _ _ _ _ _ h]; simp [hr, h]
  · rw [exec_of_op_st _ _ _ _ _ h]; simp [hr, h]
  · rw [exec_of_op_jsr _ _ _ _ _ h]; simp [hr, h]
  · rw [exec_of_op_and _ _ _ _ _ h]; simp [hr, h]
  · rw [exec_of_op_ldr _ _ _ _ _ h]; simp [hr, h]
  · rw [exec_of_op_str _ _ _ _ _ h]; simp [hr, h]
  · rw [exec_of_op_bad _ _ _ _ _ (Or.inl h)]; simp [h]
  · rw [exec_of_op_not _ _ _ _ _ h]; simp [hr, h]
  · rw [exec_of_op_ldi _ _ _ _ _ h]; simp [hr, h]
  · rw [exec_of_op_sti _ _ _ _ _ h]; simp [hr, h]
  · rw [exec_of_op_jmp _ _ _ _ _ h]; simp [hr, h]
  · rw [exec_of_op_bad _ _ _ _ _ (Or.inr h)]; simp [h]
  · rw [exec_of_op_lea _ _ _ _ _ h]; simp [hr, h]
  · rcases trap_code_cases (instr &&& 0xFF) with hc|hc|hc|hc|hc|hc|hc
    · rw [exec_of_trap_getc _ _ _ _ _ h hc]; simp [hr, h, hc]
    · rw [exec_of_trap_out _ _ _ _ _ h hc]; simp [hr, h, hc]
    · rw [exec_of_trap_puts _ _ _ _ _ h hc]; simp [hr, h, hc]
    · rw [exec_of_trap_in _ _ _ _ _ h hc]; simp [hr, h, hc]
    · rw [exec_of_trap_putsp _ _ _ _ _ h hc]; simp [hr, h, hc]
    · rw [exec_of_trap_halt _ _ _ _ _ h hc]; simp [h, hc]
    · rw [exec_of_trap_other _ _ _ _ _ h hc]; simp [hr, h, hc.2.2.2.2.2]
  · exact absurd h16 (by omega)

/-- No opcode stores a value of 2^16 or more into memory. -/
theorem exec_WF (s : VMState) (m1 : Nat → Nat) (i1 : List Nat) (r1 : Nat → Nat)
    (instr : Nat) (hm : WFmem m1) : WFmem (exec s m1 i1 r1 instr).mem := by
  rcases op_cases instr with h|h|h|h|h|h|h|h|h|h|h|h|h|h|h|h|h
  · rw [exec_of_op_br _ _ _ _ _ h]; exact hm
  · rw [exec_of_op_add _ _ _ _ _ h]; exact hm
  · rw [exec_of_op_ld _ _ _ _ _ h]; exact MemRead_WF _ _ _ hm
  · rw [exec_of_op_st _ _ _ _ _ h]; exact setMem_WF _ _ _ hm
  · rw [exec_of_op_jsr _ _ _ _ _ h]; exact hm
  · rw [exec_of_op_and _ _ _ _ _ h]; exact hm
  · rw [exec_of_op_ldr _ _ _ _ _ h]; exact MemRead_WF _ _ _ hm
  · rw [exec_of_op_str _ _ _ _ _ h]; exact setMem_WF _ _ _ hm
  · rw [exec_of_op_bad _ _ _ _ _ (Or.inl h)]; exact hm
  · rw [exec_of_op_not _ _ _ _ _ h]; exact hm
  · rw [exec_of_op_ldi _ _ _ _ _ h]; exact MemRead_WF _ _ _ (MemRead_WF _ _ _ hm)
  · rw [exec_of_op_sti _ _ _ _ _ h]; exact setMem_WF _ _ _ (MemRead_WF _ _ _ hm)
  · rw [exec_of_op_jmp _ _ _ _ _ h]; exact hm
  · rw [exec_of_op_bad _ _ _ _ _ (Or.inr h)]; exact hm
  · rw [exec_of_op_lea _ _ _ _ _ h]; exact hm
  · rcases trap_code_cases (instr &&& 0xFF) with hc|hc|hc|hc|hc|hc|hc
    · rw [exec_of_trap_getc _ _ _ _ _ h hc]; exact hm
    · rw [exec_of_trap_out _ _ _ _ _ h hc]; exact hm
    · rw [exec_of_trap_puts _ _ _ _ _ h hc]; exact hm
    · rw [exec_of_trap_in _ _ _ _ _ h hc]; exact hm
    · rw [exec_of_trap_putsp _ _ _ _ _ h hc]; exact hm
    · rw [exec_of_trap_halt _ _ _ _ _ h hc]; exact hm
    · rw [exec_of_trap_other _ _ _ _ _ h hc]; exact hm
  · rw [exec_of_op_ge16 _ _ _ _ _ h]; exact hm

theorem step_WF (s : VMState) (h : WFmem s.mem) : WFmem (step s).mem := by
  by_cases hr : s.running = true
  · rw [step_eq s hr]
    exact exec_WF _ _ _ _ _ (MemRead_WF _ _ _ h)
  · rw [step_eq_not_running s hr]
    exact h

theorem reachable_WF (mem0 : Nat → Nat) (inp : List Nat) (s : VMState)
    (hs : Reachable mem0 inp s) (hm : WFmem mem0) : WFmem s.mem := by
  induction hs with
  | init => exact hm
  | succ h ih => exact step_WF _ ih

/-- The condition register of every reachable state holds one of the
three flags. -/
theorem reachable_cond (mem0 : Nat → Nat) (inp : List Nat) (s : VMState)
    (hs : Reachable mem0 inp s) :
    s.reg kRCond = kFlPos ∨ s.reg kRCond = kFlZro ∨ s.reg kRCond = kFlNeg := by
  induction hs with
  | init =>
    right; left
    show setReg (setReg zeroReg kRCond kFlZro) kRPC 0x3000 kRCond = kFlZro
    rw [setReg_other _ _ _ _ (by decide)]
    exact setReg_same _ _ _
  | @succ t h ih =>
    by_cases hr : t.running = true
    · rw [step_eq t hr]
      rcases exec_cond_cases t (fetchedMem t) (fetchedInput t)
        (setReg t.reg kRPC (t.reg kRPC + 1)) (fetched t) with h1 | h1
      · rw [h1, setReg_other _ _ _ _ (by decide)]
        exact ih
      · exact h1
    · rw [step_eq_not_running t hr]
      exact ih

theorem R0_ne_cond (instr : Nat) : R0 instr ≠ kRCond := by
  have := R0_le instr
  show R0 instr ≠ 9
  omega

/-- Claim C5 (confirmed): UpdateFlag writes exactly NEG when bit 15 of
the written value is 1, else ZERO when the value is 0, else POS; and in
every reachable state after initialization the condition register holds
exactly one of the three flags. -/
theorem C5_condition_flags (reg : Nat → Nat) (x : Nat) (hx : reg x < 65536)
    (mem0 : Nat → Nat) (inp : List Nat) (s : VMState) (hs : Reachable mem0 inp s) :
    UpdateFlag reg x kRCond =
      (if reg x >>> 15 = 1 then kFlNeg else if reg x = 0 then kFlZro else kFlPos) ∧
    (s.reg kRCond = kFlPos ∨ s.reg kRCond = kFlZro ∨ s.reg kRCond = kFlNeg) := by
  constructor
  · unfold UpdateFlag
    have h32768 : (2 : Nat) ^ 15 = 32768 := by norm_num
    have hsh : reg x >>> 15 = 0 ∨ reg x >>> 15 = 1 := by
      rw [Nat.shiftRight_eq_div_pow, h32768]
      omega
    by_cases h0 : reg x = 0
    · have h15 : reg x >>> 15 = 0 := by rw [h0]; decide
      rw [if_pos h0, h15, if_neg (show ¬((0 : Nat) = 1) by decide), if_pos h0]
      exact setReg_same _ _ _
    · rw [if_neg h0]
      rcases hsh with h15 | h15
      · rw [if_neg (show ¬(reg x >>> 15 ≠ 0) by simp [h15]), h15,
          if_neg (show ¬((0 : Nat) = 1) by decide), if_neg h0]
        exact setReg_same _ _ _
      · rw [if_pos (show reg x >>> 15 ≠ 0 by simp [h15]), h15, if_pos rfl]
        exact setReg_same _ _ _
  · exact reachable_cond mem0 inp s hs

/-- Witness for C5: a register holding 3 yields POS, and the initial
state holds ZERO. -/
theorem C5_condition_flags_witness :
    ((fun _ => (3 : Nat)) 0 < 65536) ∧
    UpdateFlag (fun _ => 3) 0 kRCond = kFlPos ∧
    ((initState zeroMem []).reg kRCond = kFlPos ∨
     (initState zeroMem []).reg kRCond = kFlZro ∨
     (initState zeroMem []).reg kRCond = kFlNeg) := by
  have h := C5_condition_flags (fun _ => 3) 0 (by decide) zeroMem []
    (initState zeroMem []) Reachable.init
  exact ⟨by decide, by simpa using h.1, h.2⟩

/-- Claim C6 (corrected): a fetched reserved opcode (0x8 or 0xD) halts
the engine, emits the diagnostic, and leaves the 8 general registers and
the condition flags unchanged; memory is exactly what the fetch read
path produced — unchanged whenever the PC is not the keyboard status
address, while a fetch from 0xFE00 may update the two device cells. -/
theorem C6_reserved_opcode (s : VMState) (hr : s.running = true)
    (h : fetched s >>> 12 = kOpRti ∨ fetched s >>> 12 = kOpRes) :
    (step s).running = false ∧
    (step s).output = s.output ++ badOpcodeMsg ∧
    (step s).mem = fetchedMem s ∧
    (step s).input = fetchedInput s ∧
    (step s).reg kRPC = (s.reg kRPC + 1) % 65536 ∧
    (∀ r, r ≠ kRPC → (step s).reg r = s.reg r) ∧
    (s.reg kRPC ≠ kKeyboardStatus → (step s).mem = s.mem) := by
  rw [step_eq s hr, exec_of_op_bad _ _ _ _ _ h]
  refine ⟨rfl, rfl, rfl, rfl, setReg_same s.reg kRPC (s.reg kRPC + 1),
    fun r hrr => setReg_other s.reg kRPC (s.reg kRPC + 1) r hrr, ?_⟩
  intro hpc
  show fetchedMem s = s.mem
  simp [fetchedMem, MemRead, hpc]

/-- Witness for C6 at a fetch of the reserved word 0xD000. -/
theorem C6_reserved_opcode_witness :
    (initState (setMem zeroMem 0x3000 0xD000) []).running = true ∧
    fetched (initState (setMem zeroMem 0x3000 0xD000) []) >>> 12 = kOpRes ∧
    (step (initState (setMem zeroMem 0x3000 0xD000) [])).running = false ∧
    (step (initState (setMem zeroMem 0x3000 0xD000) [])).reg kRPC = 0x3001 := by
  have h := C6_reserved_opcode (initState (setMem zeroMem 0x3000 0xD000) []) rfl
    (Or.inr (by decide))
  refine ⟨rfl, by decide, h.1, ?_⟩
  rw [h.2.2.2.2.1]
  decide

/-- Counterexample for C6 as stated: fetching at PC = 0xFE00 with a key
pending polls the device, which both makes the fetched word 0x8000
(opcode 0x8, reserved) and changes Memory at the device cells, so the
instruction does not leave Memory unmodified. -/
theorem C6_counterexample_poll_during_fetch :
    fetched (VMState.mk zeroMem (setReg (setReg zeroReg kRCond kFlZro) kRPC 0xFE00)
      true [65] []) >>> 12 = kOpRti ∧
    (step (VMState.mk zeroMem (setReg (setReg zeroReg kRCond kFlZro) kRPC 0xFE00)
      true [65] [])).running = false ∧
    (step (VMState.mk zeroMem (setReg (setReg zeroReg kRCond kFlZro) kRPC 0xFE00)
      true [65] [])).mem kKeyboardData = 65 ∧
    (step (VMState.mk zeroMem (setReg (setReg zeroReg kRCond kFlZro) kRPC 0xFE00)
      true [65] [])).mem kKeyboardStatus = 0x8000 ∧
    zeroMem kKeyboardData = 0 ∧ zeroMem kKeyboardStatus = 0 := by
  decide

/-- Claim C7 (confirmed): the fetch increments the PC by exactly 1 mod
2^16 before execution; every opcode other than BR, JSR and JMP leaves
that incremented PC in place, and every PC-relative computation (BR
taken, JSR, LD, LDI, LEA, ST, STI) applies its offset to the already
incremented PC. -/
theorem C7_pc_incremented_before_execute (s : VMState) (hr : s.running = true) :
    (fetched s >>> 12 ≠ kOpBr → fetched s >>> 12 ≠ kOpJsr → fetched s >>> 12 ≠ kOpJmp →
      (step s).reg kRPC = (s.reg kRPC + 1) % 65536) ∧
    (fetched s >>> 12 = kOpBr → s.reg kRCond &&& ((fetched s >>> 9) &&& 0x7) = 0 →
      (step s).reg kRPC = (s.reg kRPC + 1) % 65536) ∧
    (fetched s >>> 12 = kOpBr → s.reg kRCond &&& ((fetched s >>> 9) &&& 0x7) ≠ 0 →
      (step s).reg kRPC =
        ((s.reg kRPC + 1) % 65536 + SignExtend (fetched s &&& 0x1FF) 9) % 65536) ∧
    (fetched s >>> 12 = kOpJsr →
      (step s).reg kR7 = (s.reg kRPC + 1) % 65536 ∧
      ((fetched s >>> 11) &&& 1 = 1 →
        (step s).reg kRPC =
          ((s.reg kRPC + 1) % 65536 + SignExtend (fetched s &&& 0x7FF) 11) % 65536)) ∧
    (fetched s >>> 12 = kOpLea →
      (step s).reg (R0 (fetched s)) =
        ((s.reg kRPC + 1) % 65536 + SignExtend (fetched s &&& 0x1FF) 9) % 65536) ∧
    (fetched s >>> 12 = kOpLd →
      (step s).reg (R0 (fetched s)) =
        (MemRead (fetchedMem s) (fetchedInput s)
          (((s.reg kRPC + 1) % 65536 + SignExtend (fetched s &&& 0x1FF) 9) % 65536)).2.2
          % 65536) ∧
    (fetched s >>> 12 = kOpSt →
      (step s).mem =
        setMem (fetchedMem s)
          (((s.reg kRPC + 1) % 65536 + SignExtend (fetched s &&& 0x1FF) 9) % 65536)
          (s.reg (R0 (fetched s)))) ∧
    (fetched s >>> 12 = kOpLdi →
      (step s).reg (R0 (fetched s)) =
        (MemRead
          (MemRead (fetchedMem s) (fetchedInput s)
            (((s.reg kRPC + 1) % 65536 + SignExtend (fetched s &&& 0x1FF) 9) % 65536)).1
          (MemRead (fetchedMem s) (fetchedInput s)
            (((s.reg kRPC + 1) % 65536 + SignExtend (fetched s &&& 0x1FF) 9) % 65536)).2.1
          (MemRead (fetchedMem s) (fetchedInput s)
            (((s.reg kRPC + 1) % 65536 + SignExtend (fetched s &&& 0x1FF) 9) % 65536)).2.2).2.2
          % 65536) ∧
    (fetched s >>> 12 = kOpSti →
      (step s).mem =
        setMem
          (MemRead (fetchedMem s) (fetchedInput s)
            (((s.reg kRPC + 1) % 65536 + SignExtend (fetched s &&& 0x1FF) 9) % 65536)).1
          (MemRead (fetchedMem s) (fetchedInput s)
            (((s.reg kRPC + 1) % 65536 + SignExtend (fetched s &&& 0x1FF) 9) % 65536)).2.2
          (s.reg (R0 (fetched s)))) := by
  have epc : setReg s.reg kRPC (s.reg kRPC + 1) kRPC = (s.reg kRPC + 1) % 65536 :=
    setReg_same _ _ _
  have econd : setReg s.reg kRPC (s.reg kRPC + 1) kRCond = s.reg kRCond :=
    setReg_other _ _ _ _ (show kRCond ≠ kRPC by decide)
  refine ⟨?_, ?_, ?_, ?_, ?_, ?_, ?_, ?_, ?_⟩
  · intro h0 h4 hC
    rw [step_eq s hr, exec_pc _ _ _ _ _ h0 h4 hC]
    exact epc
  · intro h hcond
    rw [step_eq s hr, exec_of_op_br _ _ _ _ _ h]
    dsimp only
    rw [econd, if_neg (by simp [hcond])]
    exact epc
  · intro h hcond
    rw [step_eq s hr, exec_of_op_br _ _ _ _ _ h]
    dsimp only
    rw [econd, if_pos hcond, setReg_same]
    simp only [setReg_same]
  · intro h
    rw [step_eq s hr, exec_of_op_jsr _ _ _ _ _ h]
    dsimp only
    constructor
    · split_ifs <;>
        (rw [setReg_other _ _ _ _ (show kR7 ≠ kRPC by decide), setReg_same];
         simp only [setReg_same];
         exact Nat.mod_mod_of_dvd _ dvd_rfl)
    · intro hm
      rw [if_pos hm, setReg_same,
        setReg_other _ _ _ _ (show kRPC ≠ kR7 by decide)]
      simp only [setReg_same]
  · intro h
    rw [step_eq s hr, exec_of_op_lea _ _ _ _ _ h]
    dsimp only
    rw [UpdateFlag_apply_ne _ _ _ (R0_ne_cond _), setReg_same]
    simp only [setReg_same]
  · intro h
    rw [step_eq s hr, exec_of_op_ld _ _ _ _ _ h]
    dsimp only
    rw [UpdateFlag_apply_ne _ _ _ (R0_ne_cond _), setReg_same]
    simp only [setReg_same]
  · intro h
    rw [step_eq s hr, exec_of_op_st _ _ _ _ _ h]
    dsimp only
    simp only [setReg_same, setReg_pc_at_R0]
  · intro h
    rw [step_eq s hr, exec_of_op_ldi _ _ _ _ _ h]
    dsimp only
    rw [UpdateFlag_apply_ne _ _ _ (R0_ne_cond _), setReg_same]
    simp only [setReg_same]
  · intro h
    rw [step_eq s hr, exec_of_op_sti _ _ _ _ _ h]
    dsimp only
    simp only [setReg_same, setReg_pc_at_R0]

/-- Witness for C7: an ADD instruction at 0x3000 leaves the PC at
0x3001. -/
theorem C7_pc_incremented_before_execute_witness :
    (initState (setMem zeroMem 0x3000 0x1023) []).running = true ∧
    (step (initState (setMem zeroMem 0x3000 0x1023) [])).reg kRPC = 0x3001 := by
  have h := (C7_pc_incremented_before_execute
    (initState (setMem zeroMem 0x3000 0x1023) []) rfl).1 (by decide) (by decide) (by decide)
  refine ⟨rfl, ?_⟩
  rw [h]
  decide

/-- Claim C9 (confirmed): in every reachable running state, the step
halts the engine exactly when the fetched opcode is reserved (0x8 or
0xD) or the instruction is TRAP with code HALT; in particular an
unrecognized trap code does not stop the loop. -/
theorem C9_halting_conditions (mem0 : Nat → Nat) (inp : List Nat) (s : VMState)
    (hm : WFmem mem0) (hs : Reachable mem0 inp s) (hr : s.running = true) :
    ((step s).running = false ↔
      (fetched s >>> 12 = kOpRti ∨ fetched s >>> 12 = kOpRes ∨
        (fetched s >>> 12 = kOpTrap ∧ fetched s &&& 0xFF = kTrapHalt))) := by
  have hwf : WFmem s.mem := reachable_WF mem0 inp s hs hm
  have hlt : fetched s < 65536 := MemRead_val_lt _ _ _ hwf
  have h16 : fetched s >>> 12 < 16 := by
    have h4096 : (2 : Nat) ^ 12 = 4096 := by norm_num
    rw [Nat.shiftRight_eq_div_pow, h4096]
    omega
  rw [step_eq s hr]
  exact exec_halts _ _ _ _ _ hr h16

/-- Witness for C9: from the all-zero image the first step fetches
opcode 0 (BR) and the engine keeps running. -/
theorem C9_halting_conditions_witness :
    WFmem zeroMem ∧ (initState zeroMem []).running = true ∧
    ¬ ((step (initState zeroMem [])).running = false) := by
  have h := C9_halting_conditions zeroMem [] (initState zeroMem [])
    (fun _ => show (0 : Nat) < 65536 by decide) Reachable.init rfl
  refine ⟨fun _ => show (0 : Nat) < 65536 by decide, rfl, ?_⟩
  rw [h]
  decide
